import Mathlib

/-!
Verification of the career-reality-checker evaluation engine.

The definitions below are a shallow embedding of the rule-based `Evaluator`
class in `src/engine/src/index.ts` together with the static scenario table in
`src/engine/src/scenarios` (compiled form in the repository).  JavaScript
numbers are embedded as rationals (`ℚ`), `Math.round` as Mathlib's `round`
(both are floor-of-x-plus-half), `Math.min`/`Math.max` as `min`/`max`, and
fallible/optional fields as `Option`.  Free-text message strings, the
`contributingFactors`/`requiredActions`/`recommendations` string lists and the
`metadata` timestamp carry no computational content and are not modelled; every
number, flag, severity and branch choice that feeds them is.
-/

/-- Whether the first list of characters is an initial segment of the second,
used to implement JavaScript `String.prototype.includes`. -/
def startsWithL : List Char → List Char → Bool
  | [], _ => true
  | _ :: _, [] => false
  | c :: cs, d :: ds => c == d && startsWithL cs ds

/-- JavaScript `hay.includes(needle)` on exploded strings: `needle` occurs as a
contiguous subsequence of `hay` (the empty needle always occurs). -/
def containsSub : List Char → List Char → Bool
  | [], needle => needle.isEmpty
  | c :: t, needle => startsWithL needle (c :: t) || containsSub t needle

/-- JavaScript `s.toLowerCase()` as a list of characters. -/
def lowerChars (s : String) : List Char :=
  s.data.map Char.toLower

/-- `lowerChars hay` contains the (already lowercase) keyword `kw`. -/
def hasKeyword (hay : List Char) (kw : String) : Bool :=
  containsSub hay kw.data

/-- Education levels (`models.ts`). -/
inductive EducationLevel
  | highSchool | associates | bachelors | masters | doctorate | none
deriving DecidableEq, Repr

/-- Employment status (`models.ts`). -/
inductive EmploymentStatus
  | employed | unemployed | selfEmployed | student
deriving DecidableEq, Repr

/-- Educational background (`models.ts` `Education`); `graduationYear` and
`institution` are never read by the engine and are omitted. -/
structure Education where
  level : EducationLevel
  field : Option String
deriving DecidableEq, Repr

/-- Professional experience (`models.ts` `Experience`); `currentRole` and
`previousRoles` are never read by the engine and are omitted. -/
structure Experience where
  totalYears : ℚ
  relevantYears : ℚ
deriving DecidableEq, Repr

/-- A named skill with proficiency 0–5 (`models.ts` `Skill`);
`yearsOfExperience` is never read by the engine and is omitted. -/
structure Skill where
  name : String
  proficiency : ℕ
deriving DecidableEq, Repr

/-- Location preferences (`models.ts`); only `isFlexible` is read. -/
structure UserLocation where
  isFlexible : Bool
deriving DecidableEq, Repr

/-- The user profile (`models.ts` `UserProfile`); `age` and
`additionalContext` are never read by the engine and are omitted. -/
structure UserProfile where
  education : Education
  experience : Experience
  skills : List Skill
  employmentStatus : EmploymentStatus
  location : Option UserLocation
deriving DecidableEq, Repr

/-- Target timeline (`models.ts` `Timeline`); only `targetMonths` is read. -/
structure Timeline where
  targetMonths : ℚ
deriving DecidableEq, Repr

/-- Salary expectations (`models.ts` `SalaryExpectation`). -/
structure SalaryExpectation where
  desired : ℚ
  minimum : ℚ
  currency : String
deriving DecidableEq, Repr

/-- Additional goal requirements (`models.ts`); `targetCompany` and `other`
are never read by the engine and are omitted. -/
structure GoalRequirements where
  remoteOnly : Bool
  targetLocation : Option String
deriving DecidableEq, Repr

/-- The career goal (`models.ts` `CareerGoal`); `motivation` is never read by
the engine and is omitted. -/
structure CareerGoal where
  targetRole : String
  targetIndustry : String
  timeline : Timeline
  salaryExpectation : Option SalaryExpectation
  requirements : Option GoalRequirements
deriving DecidableEq, Repr

/-- Timeline range of a scenario (`scenarios` `TimelineRange`). -/
structure TimelineRange where
  bestCaseMonths : ℚ
  averageCaseMonths : ℚ
  worstCaseMonths : ℚ
deriving DecidableEq, Repr

/-- Typical salary range of a scenario. -/
structure SalaryRange where
  min : ℚ
  max : ℚ
  currency : String
deriving DecidableEq, Repr

/-- Skill requirement of a scenario (`scenarios` `SkillRequirement`). -/
structure SkillRequirement where
  skillName : String
  minProficiency : ℕ
  isCritical : Bool
  monthsToLearn : Option ℚ
deriving DecidableEq, Repr

/-- A static career scenario (`scenarios` `CareerScenario`).  The engine reads
`name`, `targetRole`, `targetIndustry`, `minExperienceYears`,
`skillRequirements`, `timelineRanges` and `typicalSalaryRange`; the purely
descriptive fields (`description`, `preferredEducation`, `timeRequirements`,
`commonFailureReasons`, `notes`) are never read and are omitted. -/
structure CareerScenario where
  id : String
  name : String
  targetRole : String
  targetIndustry : String
  minExperienceYears : ℚ
  skillRequirements : List SkillRequirement
  timelineRanges : TimelineRange
  typicalSalaryRange : Option SalaryRange
deriving DecidableEq, Repr

/-- The static scenario table shipped with the engine
(`src/engine/src/scenarios`, compiled copy in the repository), restricted to
the fields the evaluator reads. -/
def scenarios : List CareerScenario :=
  [ { id := "faang-sde"
    , name := "FAANG Software Development Engineer"
    , targetRole := "Software Development Engineer"
    , targetIndustry := "Technology"
    , minExperienceYears := 2
    , skillRequirements :=
        [ ⟨"Data Structures and Algorithms", 4, true, some 6⟩
        , ⟨"System Design", 3, true, some 4⟩
        , ⟨"At least one programming language (Java, Python, C++, etc.)", 4, true, some 12⟩
        , ⟨"Problem Solving", 4, true, some 6⟩
        , ⟨"Computer Science Fundamentals", 3, false, some 12⟩ ]
    , timelineRanges := ⟨6, 12, 24⟩
    , typicalSalaryRange := some ⟨150000, 300000, "USD"⟩ }
  , { id := "ml-engineer"
    , name := "Machine Learning Engineer"
    , targetRole := "Machine Learning Engineer"
    , targetIndustry := "Technology"
    , minExperienceYears := 1
    , skillRequirements :=
        [ ⟨"Machine Learning Fundamentals", 4, true, some 12⟩
        , ⟨"Python", 4, true, some 6⟩
        , ⟨"Deep Learning (TensorFlow/PyTorch)", 3, true, some 6⟩
        , ⟨"Statistics and Mathematics", 3, true, some 12⟩
        , ⟨"Software Engineering", 3, true, some 12⟩
        , ⟨"MLOps / Model Deployment", 2, false, some 4⟩ ]
    , timelineRanges := ⟨9, 18, 36⟩
    , typicalSalaryRange := some ⟨120000, 250000, "USD"⟩ }
  , { id := "masters-research-path"
    , name := "Masters Degree → Research Path"
    , targetRole := "Research Scientist / PhD Student / Research Engineer"
    , targetIndustry := "Academia / Research"
    , minExperienceYears := 0
    , skillRequirements :=
        [ ⟨"Research Methodology", 3, true, some 12⟩
        , ⟨"Academic Writing", 3, true, some 6⟩
        , ⟨"Domain-specific expertise (varies by field)", 4, true, some 24⟩
        , ⟨"Statistical Analysis", 3, false, some 6⟩
        , ⟨"Literature Review", 3, false, some 4⟩ ]
    , timelineRanges := ⟨24, 30, 48⟩
    , typicalSalaryRange := some ⟨0, 150000, "USD"⟩ } ]

/-- Keyword heuristic shared verbatim by `calculateExperienceScore` and
`estimateExperienceGap` in `index.ts`: years of experience typically required
for the (case-insensitively matched) target role title. -/
def requiredYearsFor (targetRole : String) : ℚ :=
  let roleTitle := lowerChars targetRole
  if hasKeyword roleTitle "senior" || hasKeyword roleTitle "lead" || hasKeyword roleTitle "principal" then 5
  else if hasKeyword roleTitle "junior" || hasKeyword roleTitle "entry" || hasKeyword roleTitle "associate" then 1
  else if hasKeyword roleTitle "director" || hasKeyword roleTitle "manager" || hasKeyword roleTitle "head" then 7
  else 3

/-- `Evaluator.calculateExperienceScore` (`index.ts` lines 174–215). -/
def calculateExperienceScore (profile : UserProfile) (goal : CareerGoal) : ℚ :=
  let relevantYears := profile.experience.relevantYears
  let totalYears := profile.experience.totalYears
  let requiredYears := requiredYearsFor goal.targetRole
  if requiredYears ≤ relevantYears then
    min 100 (80 + min 20 ((relevantYears - requiredYears) * 5))
  else if requiredYears * 0.5 ≤ relevantYears then
    ((round (40 + (relevantYears / requiredYears - 0.5) * 80) : ℤ) : ℚ)
  else if 0 < relevantYears then
    ((round (relevantYears / (requiredYears * 0.5) * 40) : ℤ) : ℚ)
  else if 0 < totalYears then
    min 20 (totalYears * 5)
  else 0

/-- `Evaluator.calculateSkillScore` (`index.ts` lines 227–259). -/
def calculateSkillScore (profile : UserProfile) : ℚ :=
  if profile.skills.length = 0 then 0
  else
    let avgProficiency :=
      (profile.skills.foldl (fun sum skill => sum + (skill.proficiency : ℚ)) 0) /
        (profile.skills.length : ℚ)
    let proficiencyScore : ℚ :=
      if 4 ≤ avgProficiency then 100
      else if 3 ≤ avgProficiency then 80
      else if 2 ≤ avgProficiency then 50
      else if 1 ≤ avgProficiency then 25
      else 0
    let skillCountBonus : ℚ := min 20 ((profile.skills.length : ℚ) * 2)
    min 100 (proficiencyScore + skillCountBonus)

/-- Field-of-study bonus inside `Evaluator.calculateEducationScore`.  The JS
guard `if (education.field && goal.targetIndustry)` treats the empty string as
falsy, hence the explicit emptiness tests. -/
def educationFieldBonus (field : Option String) (targetIndustry : String) : ℚ :=
  match field with
  | Option.none => 0
  | some f =>
    if f = "" || targetIndustry = "" then 0
    else
      let fieldLower := lowerChars f
      let industryLower := lowerChars targetIndustry
      if (hasKeyword fieldLower "computer" || hasKeyword fieldLower "software" || hasKeyword fieldLower "tech") &&
         (hasKeyword industryLower "tech" || hasKeyword industryLower "software" || hasKeyword industryLower "it") then 20
      else if (hasKeyword fieldLower "business" || hasKeyword fieldLower "management" || hasKeyword fieldLower "finance") &&
              (hasKeyword industryLower "business" || hasKeyword industryLower "finance" || hasKeyword industryLower "consulting") then 20
      else if containsSub fieldLower industryLower || containsSub industryLower fieldLower then 15
      else 0

/-- `Evaluator.calculateEducationScore` (`index.ts` lines 273–324). -/
def calculateEducationScore (profile : UserProfile) (goal : CareerGoal) : ℚ :=
  let baseScore : ℚ :=
    match profile.education.level with
    | .doctorate => 100
    | .masters => 100
    | .bachelors => 80
    | .associates => 60
    | .highSchool => 40
    | .none => 0
  min 100 (baseScore + educationFieldBonus profile.education.field goal.targetIndustry)

/-- One identified skill gap (`models.ts` `SkillGap`). -/
structure SkillGap where
  skillName : String
  currentProficiency : ℕ
  requiredProficiency : ℕ
  priority : ℕ
  estimatedTimeToAcquireMonths : Option ℚ
deriving DecidableEq, Repr

/-- `Evaluator.identifySkillGaps` (`index.ts` lines 899–931): synthesized
placeholder gaps when fewer than three skills are listed, then one gap per
profile skill with proficiency below 3, in profile order. -/
def identifySkillGaps (profile : UserProfile) (goal : CareerGoal) : List SkillGap :=
  (if profile.skills.length < 3 then
    (List.range (3 - profile.skills.length)).map (fun i =>
      { skillName := "Required skill " ++ Nat.repr (i + 1) ++ " for " ++ goal.targetRole
      , currentProficiency := 0
      , requiredProficiency := 3
      , priority := 1
      , estimatedTimeToAcquireMonths := some 6 })
  else []) ++
  profile.skills.filterMap (fun skill =>
    if skill.proficiency < 3 then
      some { skillName := skill.name
           , currentProficiency := skill.proficiency
           , requiredProficiency := 3
           , priority := if skill.proficiency = 0 then 1 else 2
           , estimatedTimeToAcquireMonths := some ((3 - (skill.proficiency : ℚ)) * 2) }
    else Option.none)

/-- Months attributed to one gap by the reductions in `calculateTimelineScore`
and `calculateProbabilityBands`: JS `gap.estimatedTimeToAcquireMonths || 3`
falls back to 3 when the field is absent or zero (numeric falsiness). -/
def gapMonths (gap : SkillGap) : ℚ :=
  match gap.estimatedTimeToAcquireMonths with
  | some m => if m = 0 then 3 else m
  | Option.none => 3

/-- Sum of `gapMonths` over a gap list, as the JS `reduce` with accumulator 0. -/
def totalSkillMonths (gaps : List SkillGap) : ℚ :=
  gaps.foldl (fun sum gap => sum + gapMonths gap) 0

/-- `Evaluator.estimateExperienceGap` (`index.ts` lines 391–407). -/
def estimateExperienceGap (profile : UserProfile) (goal : CareerGoal) : ℚ :=
  max 0 (requiredYearsFor goal.targetRole - profile.experience.relevantYears)

/-- Minimum realistic months shared by `calculateTimelineScore` (where the
running value is clamped up to 2) and `calculateProbabilityBands` (where the
same expression appears as `baseMonths = Math.max(2, …)`). -/
def minimumRealisticMonths (profile : UserProfile) (goal : CareerGoal) : ℚ :=
  max 2 (estimateExperienceGap profile goal * 12 +
    totalSkillMonths (identifySkillGaps profile goal) +
    (if profile.experience.relevantYears < 1 then 6 else 0))

/-- `Evaluator.calculateTimelineScore` (`index.ts` lines 339–385). -/
def calculateTimelineScore (profile : UserProfile) (goal : CareerGoal) : ℚ :=
  let targetMonths := goal.timeline.targetMonths
  let m := minimumRealisticMonths profile goal
  if m * 1.5 ≤ targetMonths then 100
  else if m ≤ targetMonths then
    ((round (70 + (targetMonths / m - 1) * 20) : ℤ) : ℚ)
  else if m * 0.7 ≤ targetMonths then
    ((round (40 + (targetMonths / m - 0.7) * 100) : ℤ) : ℚ)
  else
    ((round (targetMonths / m * 57) : ℤ) : ℚ)

/-- Overall score: the weighted average rounded in `Evaluator.evaluate`
(`index.ts` lines 92–97). -/
def overallScoreOf (profile : UserProfile) (goal : CareerGoal) : ℤ :=
  round (calculateExperienceScore profile goal * 0.3 +
    calculateSkillScore profile * 0.3 +
    calculateEducationScore profile goal * 0.2 +
    calculateTimelineScore profile goal * 0.2)

/-- The three probability bands. -/
inductive BandKind
  | best | average | worst
deriving DecidableEq, Repr

/-- `Evaluator.calculateLikelihood` (`index.ts` lines 504–533). -/
def calculateLikelihood (overallScore : ℤ) (band : BandKind) : ℕ :=
  match band with
  | .average => 50
  | .best =>
    if 80 ≤ overallScore then 30
    else if 50 ≤ overallScore then 20
    else 10
  | .worst =>
    if overallScore < 50 then 40
    else if overallScore < 80 then 30
    else 20

/-- `Evaluator.calculateRequiredHours` (`index.ts` lines 551–590); the
`_skillScore` parameter is accepted and ignored exactly as in the source. -/
def calculateRequiredHours (profile : UserProfile) (goal : CareerGoal)
    (band : BandKind) (experienceScore sSc : ℚ) : ℚ :=
  let skillGaps := identifySkillGaps profile goal
  let baseHours : ℚ := 2 +
    (if 0 < skillGaps.length then (skillGaps.length : ℚ) * 0.5 else 0) +
    (if experienceScore < 50 then 1 else 0)
  let multiplier : ℚ :=
    match band with
    | .best => 0.8
    | .worst => 1.3
    | .average => 1
  min 8 (((round (baseHours * multiplier * 10) : ℤ) : ℚ) / 10)

/-- The seven sacrifice booleans (`models.ts` `SacrificeIndicators`). -/
structure SacrificeIndicators where
  reduceLeisureTime : Bool
  reduceCurrentJobCommitment : Bool
  financialInvestment : Bool
  locationFlexibility : Bool
  acceptLowerSalary : Bool
  workNonStandardHours : Bool
  delayOtherGoals : Bool
deriving DecidableEq, Repr

/-- `Evaluator.calculateSacrifices` (`index.ts` lines 602–635); the band
parameter is accepted and ignored exactly as in the source. -/
def calculateSacrifices (profile : UserProfile) (goal : CareerGoal)
    (band : BandKind) (requiredHours : ℚ) : SacrificeIndicators :=
  let isEmployed := profile.employmentStatus = EmploymentStatus.employed
  let skillGaps := identifySkillGaps profile goal
  let hasSignificantGaps :=
    2 < skillGaps.length ∨ skillGaps.any (fun gap => gap.priority == 1)
  let timelineTight := goal.timeline.targetMonths < 12
  { reduceLeisureTime := decide (3 < requiredHours)
  , reduceCurrentJobCommitment := decide (isEmployed ∧ 4 < requiredHours)
  , financialInvestment := decide (hasSignificantGaps ∨
      profile.education.level = EducationLevel.highSchool ∨
      profile.education.level = EducationLevel.none)
  , locationFlexibility := decide (
      (match goal.requirements with
       | some reqs => reqs.targetLocation.isSome
       | Option.none => false) = true ∧
      ¬((match profile.location with
         | some loc => loc.isFlexible
         | Option.none => false) = true))
  , acceptLowerSalary := decide (profile.experience.relevantYears < 1 ∨
      hasKeyword (lowerChars goal.targetRole) "junior" = true ∨
      hasKeyword (lowerChars goal.targetRole) "entry" = true)
  , workNonStandardHours := decide (timelineTight ∧ 4 < requiredHours)
  , delayOtherGoals := decide (5 < requiredHours ∨ hasSignificantGaps) }

/-- One probability band of the result (`models.ts` `ProbabilityBandResult`);
the `contributingFactors`/`requiredActions` string lists are not modelled. -/
structure ProbabilityBandResult where
  band : BandKind
  likelihood : ℕ
  estimatedTimelineMonths : ℤ
  requiredDailyHours : ℚ
  sacrifices : SacrificeIndicators
deriving DecidableEq, Repr

/-- The three bands of a result. -/
structure Bands where
  best : ProbabilityBandResult
  average : ProbabilityBandResult
  worst : ProbabilityBandResult
deriving DecidableEq, Repr

/-- `Evaluator.calculateProbabilityBands` (`index.ts` lines 420–494).  The
`baseMonths` expression is literally `minimumRealisticMonths`, recomputed in
the source with identical text. -/
def calculateProbabilityBands (profile : UserProfile) (goal : CareerGoal)
    (experienceScore skillScore : ℚ) (overallScore : ℤ) : Bands :=
  let baseMonths := minimumRealisticMonths profile goal
  let bestCaseMonths : ℤ := max 1 (round (baseMonths * 0.8))
  let bestCaseHours := calculateRequiredHours profile goal .best experienceScore skillScore
  let averageCaseMonths : ℤ := max 2 (round baseMonths)
  let averageCaseHours := calculateRequiredHours profile goal .average experienceScore skillScore
  let worstCaseMonths : ℤ := max 3 (round (baseMonths * 1.5))
  let worstCaseHours := calculateRequiredHours profile goal .worst experienceScore skillScore
  { best :=
      { band := .best
      , likelihood := calculateLikelihood overallScore .best
      , estimatedTimelineMonths := bestCaseMonths
      , requiredDailyHours := bestCaseHours
      , sacrifices := calculateSacrifices profile goal .best bestCaseHours }
  , average :=
      { band := .average
      , likelihood := calculateLikelihood overallScore .average
      , estimatedTimelineMonths := averageCaseMonths
      , requiredDailyHours := averageCaseHours
      , sacrifices := calculateSacrifices profile goal .average averageCaseHours }
  , worst :=
      { band := .worst
      , likelihood := calculateLikelihood overallScore .worst
      , estimatedTimelineMonths := worstCaseMonths
      , requiredDailyHours := worstCaseHours
      , sacrifices := calculateSacrifices profile goal .worst worstCaseHours } }

/-- The four component scores of the result. -/
structure ScoreBreakdown where
  experienceScore : ℚ
  skillScore : ℚ
  educationScore : ℚ
  timelineScore : ℚ
deriving DecidableEq, Repr

/-- The evaluation result (`models.ts` `RealityCheckResult`) restricted to its
numeric content: `warnings` (whose individual checks are modelled separately
below), `recommendations` and the `metadata` timestamp are not modelled. -/
structure RealityCheckResult where
  overallScore : ℤ
  probabilityBands : Bands
  skillGaps : List SkillGap
  scoreBreakdown : ScoreBreakdown
deriving DecidableEq, Repr

/-- `Evaluator.evaluate` (`index.ts` lines 79–160), assembling the component
scores, the rounded overall score, the probability bands and the skill gaps. -/
def evaluate (profile : UserProfile) (goal : CareerGoal) : RealityCheckResult :=
  { overallScore := overallScoreOf profile goal
  , probabilityBands := calculateProbabilityBands profile goal
      (calculateExperienceScore profile goal) (calculateSkillScore profile)
      (overallScoreOf profile goal)
  , skillGaps := identifySkillGaps profile goal
  , scoreBreakdown :=
      { experienceScore := calculateExperienceScore profile goal
      , skillScore := calculateSkillScore profile
      , educationScore := calculateEducationScore profile goal
      , timelineScore := calculateTimelineScore profile goal } }

/-- Scenario matching predicate used by `checkExpectationVsAveragesWarning`
and `checkSkillMismatchRisksWarning` (`index.ts` lines 1095–1101): role-title
substring match in either direction, or industry equality (case-insensitive)
with the scenario's experience floor within `relevantYears + 2`. -/
def scenarioMatches (profile : UserProfile) (goal : CareerGoal)
    (scenario : CareerScenario) : Bool :=
  containsSub (lowerChars scenario.targetRole) (lowerChars goal.targetRole) ||
  containsSub (lowerChars goal.targetRole) (lowerChars scenario.targetRole) ||
  (lowerChars scenario.targetIndustry == lowerChars goal.targetIndustry &&
    decide (scenario.minExperienceYears ≤ profile.experience.relevantYears + 2))

/-- First scenario in table order matching the profile and goal (JS
`scenarios.find(...)`). -/
def findMatchingScenario (profile : UserProfile) (goal : CareerGoal) :
    Option CareerScenario :=
  scenarios.find? (scenarioMatches profile goal)

/-- The two warning shapes `checkExpectationVsAveragesWarning` can emit, with
the numeric context values that also drive each interpolated message. -/
inductive ExpectationWarning where
  | timelineUnrealistic (severity : ℕ) (userTimeline averageTimeline monthsShort : ℚ)
      (percentageFaster : ℤ) (scenarioName : String)
  | salaryMismatch (severity : ℕ) (userDesired typicalMin typicalMax : ℚ)
      (percentageOver : ℤ) (scenarioName : String)
deriving DecidableEq, Repr

/-- `Evaluator.checkExpectationVsAveragesWarning` (`index.ts` lines
1085–1169).  The salary comparison runs only when the timeline comparison does
not fire, exactly as in the source. -/
def checkExpectationVsAveragesWarning (profile : UserProfile) (goal : CareerGoal) :
    Option ExpectationWarning :=
  match findMatchingScenario profile goal with
  | Option.none => Option.none
  | some sc =>
    let userTimeline := goal.timeline.targetMonths
    let averageTimeline := sc.timelineRanges.averageCaseMonths
    if userTimeline < averageTimeline * 0.7 then
      some (ExpectationWarning.timelineUnrealistic 3 userTimeline averageTimeline
        (((round ((averageTimeline - userTimeline) * 10) : ℤ) : ℚ) / 10)
        (round ((averageTimeline - userTimeline) / averageTimeline * 100))
        sc.name)
    else
      match goal.salaryExpectation, sc.typicalSalaryRange with
      | some salaryExpectation, some range =>
        if range.max * 1.2 < salaryExpectation.desired then
          some (ExpectationWarning.salaryMismatch 2 salaryExpectation.desired
            range.min range.max
            (round ((salaryExpectation.desired - range.max) / range.max * 100))
            sc.name)
        else Option.none
      | _, _ => Option.none

/-- Which of the three interpolated messages `checkTimeAvailabilityWarning`
chooses (the message text itself is not modelled). -/
inductive TimeMsg where
  | employedOverload | exceedsEight | shortfall
deriving DecidableEq, Repr

/-- The `resource_constraint` warning produced by
`checkTimeAvailabilityWarning`, with its numeric context. -/
structure TimeWarning where
  severity : ℕ
  message : TimeMsg
  requiredHours : ℚ
  availableHours : ℚ
  hoursShortfall : ℚ
deriving DecidableEq, Repr

/-- Available daily hours estimated from employment status inside
`checkTimeAvailabilityWarning` (`index.ts` lines 1016–1030). -/
def availableHoursFor (profile : UserProfile) : ℚ :=
  if profile.employmentStatus = EmploymentStatus.employed then 3
  else if profile.employmentStatus = EmploymentStatus.unemployed then 7
  else if profile.employmentStatus = EmploymentStatus.student then 4
  else 3.5

/-- `Evaluator.checkTimeAvailabilityWarning` (`index.ts` lines 1003–1073);
`goal` is accepted and ignored exactly as in the source.  The required hours
are the average band's. -/
def checkTimeAvailabilityWarning (profile : UserProfile) (goal : CareerGoal)
    (probabilityBands : Bands) : Option TimeWarning :=
  let requiredHours := probabilityBands.average.requiredDailyHours
  let availableHours := availableHoursFor profile
  if availableHours * 1.2 < requiredHours then
    let hoursOver := ((round ((requiredHours - availableHours) * 10) : ℤ) : ℚ) / 10
    if profile.employmentStatus = EmploymentStatus.employed ∧ 5 < requiredHours then
      some ⟨3, TimeMsg.employedOverload, requiredHours, availableHours, hoursOver⟩
    else if 8 < requiredHours then
      some ⟨3, TimeMsg.exceedsEight, requiredHours, availableHours, hoursOver⟩
    else
      some ⟨if availableHours * 1.5 < requiredHours then 3 else 2,
        TimeMsg.shortfall, requiredHours, availableHours, hoursOver⟩
  else Option.none

/-! Specification-side twin definitions, written from the spec's and claims'
wording, to be compared with the source-side definitions above. -/

/-- Required years per the spec's wording (claim C3): lowercased `targetRole`
containing "senior"/"lead"/"principal" gives 5, else "junior"/"entry"/
"associate" gives 1, else "director"/"manager"/"head" gives 7, else 3. -/
def specRequiredYears (targetRole : String) : ℚ :=
  let lowered := lowerChars targetRole
  if hasKeyword lowered "senior" || hasKeyword lowered "lead" || hasKeyword lowered "principal" then 5
  else if hasKeyword lowered "junior" || hasKeyword lowered "entry" || hasKeyword lowered "associate" then 1
  else if hasKeyword lowered "director" || hasKeyword lowered "manager" || hasKeyword lowered "head" then 7
  else 3

/-- Experience score per the spec's piecewise description (claim C3): with
`r = relevantYears`, `t = totalYears` and `required = specRequiredYears`, the
score is `min(100, 80 + min(20, (r-required)*5))` when `r ≥ required`;
`round(40 + (r/required - 0.5)*80)` when `required*0.5 ≤ r < required`;
`round((r/(required*0.5))*40)` when `0 < r < required*0.5`; and otherwise
`min(20, t*5)` if `t > 0` else 0. -/
def specExperienceScore (profile : UserProfile) (goal : CareerGoal) : ℚ :=
  let r := profile.experience.relevantYears
  let t := profile.experience.totalYears
  let required := specRequiredYears goal.targetRole
  if required ≤ r then min 100 (80 + min 20 ((r - required) * 5))
  else if required * 0.5 ≤ r then ((round (40 + (r / required - 0.5) * 80) : ℤ) : ℚ)
  else if 0 < r then ((round (r / (required * 0.5) * 40) : ℤ) : ℚ)
  else if 0 < t then min 20 (t * 5)
  else 0

/-- Skill-gap list per the spec's wording (claim C7): first `(3 - count)`
synthesized critical gaps when fewer than three skills are listed, then one
gap per profile skill with proficiency below 3, in profile order, priority 1
exactly when the proficiency is 0, `(3 - proficiency)*2` months to acquire;
no deduplication. -/
def specSkillGaps (profile : UserProfile) (goal : CareerGoal) : List SkillGap :=
  let synthesized :=
    if profile.skills.length < 3 then
      (List.range (3 - profile.skills.length)).map (fun i =>
        { skillName := "Required skill " ++ Nat.repr (i + 1) ++ " for " ++ goal.targetRole
        , currentProficiency := 0
        , requiredProficiency := 3
        , priority := 1
        , estimatedTimeToAcquireMonths := some 6 })
    else []
  let lowProficiency :=
    profile.skills.filterMap (fun skill =>
      if skill.proficiency < 3 then
        some { skillName := skill.name
             , currentProficiency := skill.proficiency
             , requiredProficiency := 3
             , priority := if skill.proficiency = 0 then 1 else 2
             , estimatedTimeToAcquireMonths := some ((3 - (skill.proficiency : ℚ)) * 2) }
      else Option.none)
  synthesized ++ lowProficiency

/-- Expectation-vs-averages warning per the spec's wording (claim C8): with a
matched scenario, a severity-3 timeline warning when the user's timeline is
below 70% of the scenario average, with
`percentageFaster = round((avg - user)/avg*100)`; only otherwise a severity-2
salary warning when a desired salary exceeds 120% of the scenario's typical
maximum; nothing without a matched scenario. -/
def specExpectationWarning (profile : UserProfile) (goal : CareerGoal) :
    Option ExpectationWarning :=
  match findMatchingScenario profile goal with
  | Option.none => Option.none
  | some sc =>
    if goal.timeline.targetMonths < sc.timelineRanges.averageCaseMonths * 0.7 then
      some (ExpectationWarning.timelineUnrealistic 3 goal.timeline.targetMonths
        sc.timelineRanges.averageCaseMonths
        (((round ((sc.timelineRanges.averageCaseMonths - goal.timeline.targetMonths) * 10) : ℤ) : ℚ) / 10)
        (round ((sc.timelineRanges.averageCaseMonths - goal.timeline.targetMonths) /
          sc.timelineRanges.averageCaseMonths * 100))
        sc.name)
    else
      match goal.salaryExpectation, sc.typicalSalaryRange with
      | some salaryExpectation, some range =>
        if range.max * 1.2 < salaryExpectation.desired then
          some (ExpectationWarning.salaryMismatch 2 salaryExpectation.desired
            range.min range.max
            (round ((salaryExpectation.desired - range.max) / range.max * 100))
            sc.name)
        else Option.none
      | _, _ => Option.none

/-- An abstract form of `calculateExperienceScore` over the derived required
years, the total years and the relevant years, used to analyse the score's
behaviour in `relevantYears`. -/
def expPiece (required t r : ℚ) : ℚ :=
  if required ≤ r then min 100 (80 + min 20 ((r - required) * 5))
  else if required * 0.5 ≤ r then ((round (40 + (r / required - 0.5) * 80) : ℤ) : ℚ)
  else if 0 < r then ((round (r / (required * 0.5) * 40) : ℤ) : ℚ)
  else if 0 < t then min 20 (t * 5)
  else 0

/-- Validity conditions of claim C4: non-negative experience years,
proficiencies in 0–5, target timeline at least one month. -/
def ValidInput (profile : UserProfile) (goal : CareerGoal) : Prop :=
  0 ≤ profile.experience.totalYears ∧
  0 ≤ profile.experience.relevantYears ∧
  (∀ skill ∈ profile.skills, skill.proficiency ≤ 5) ∧
  1 ≤ goal.timeline.targetMonths

/-- A rational that is an integer. -/
def IsIntQ (q : ℚ) : Prop := ∃ k : ℤ, q = (k : ℚ)

/-- Example profile with four years of general and no relevant experience and
no listed skills, employed. -/
def exProfileGen : UserProfile :=
  { education := ⟨EducationLevel.none, Option.none⟩
  , experience := ⟨4, 0⟩
  , skills := []
  , employmentStatus := EmploymentStatus.employed
  , location := Option.none }

/-- `exProfileGen` with one year of relevant experience. -/
def exProfileOne : UserProfile := { exProfileGen with experience := ⟨4, 1⟩ }

/-- Example goal targeting a management role. -/
def exGoalManager : CareerGoal :=
  { targetRole := "Engineering Manager"
  , targetIndustry := ""
  , timeline := ⟨12⟩
  , salaryExpectation := Option.none
  , requirements := Option.none }

/-- Example goal with a keyword-free software-engineering role title. -/
def exGoalSE : CareerGoal :=
  { targetRole := "Software Engineer"
  , targetIndustry := ""
  , timeline := ⟨12⟩
  , salaryExpectation := Option.none
  , requirements := Option.none }

/-- Example profile with six years of relevant experience (spec Example 2). -/
def exProfileSix : UserProfile :=
  { education := ⟨EducationLevel.bachelors, Option.none⟩
  , experience := ⟨6, 6⟩
  , skills := []
  , employmentStatus := EmploymentStatus.employed
  , location := Option.none }

/-- Example profile with fractional (3.5) experience years. -/
def exProfileHalf : UserProfile :=
  { education := ⟨EducationLevel.bachelors, Option.none⟩
  , experience := ⟨7/2, 7/2⟩
  , skills := []
  , employmentStatus := EmploymentStatus.employed
  , location := Option.none }

/-! Helper lemmas about rounding and the score calculators. -/

/-- Rounding is monotone on the rationals. -/
theorem roundq_mono {x y : ℚ} (h : x ≤ y) : round x ≤ round y := by
  rw [round_eq, round_eq]
  exact Int.floor_mono (by linarith)

/-- Rounding a non-negative rational gives a non-negative integer. -/
theorem roundq_nonneg {x : ℚ} (h : 0 ≤ x) : 0 ≤ round x := by
  have h0 : round (0 : ℚ) ≤ round x := roundq_mono h
  simpa using h0

/-- Rounding a rational below an integer stays below that integer. -/
theorem roundq_le_int {x : ℚ} {n : ℤ} (h : x ≤ (n : ℚ)) : round x ≤ n := by
  have hm : round x ≤ round ((n : ℚ)) := roundq_mono h
  simpa using hm

/-- Rounding a rational above an integer stays above that integer. -/
theorem int_le_roundq {n : ℤ} {x : ℚ} (h : (n : ℚ) ≤ x) : n ≤ round x := by
  have hm : round ((n : ℚ)) ≤ round x := roundq_mono h
  simpa using hm

/-- The keyword heuristic always yields a positive year requirement. -/
theorem requiredYearsFor_pos (targetRole : String) : 0 < requiredYearsFor targetRole := by
  simp only [requiredYearsFor]
  split_ifs <;> norm_num

/-- The keyword heuristic yields one of the four tabulated values. -/
theorem requiredYearsFor_cases (targetRole : String) :
    requiredYearsFor targetRole = 5 ∨ requiredYearsFor targetRole = 1 ∨
    requiredYearsFor targetRole = 7 ∨ requiredYearsFor targetRole = 3 := by
  simp only [requiredYearsFor]
  split_ifs <;> simp

/-- `calculateExperienceScore` is `expPiece` applied to the derived required
years and the profile's experience fields. -/
theorem calculateExperienceScore_eq_expPiece (profile : UserProfile) (goal : CareerGoal) :
    calculateExperienceScore profile goal =
      expPiece (requiredYearsFor goal.targetRole)
        profile.experience.totalYears profile.experience.relevantYears := rfl

/-- The experience score is monotone in `relevantYears` on the positive
range, for any positive requirement. -/
theorem expPiece_mono {required t r1 r2 : ℚ} (hreq : 0 < required)
    (h1 : 0 < r1) (h12 : r1 ≤ r2) :
    expPiece required t r1 ≤ expPiece required t r2 := by
  have hhalf : 0 < required * 0.5 := by positivity
  simp only [expPiece]
  rcases le_or_lt required r1 with hA1 | hA1
  · -- r1 at or above the requirement, hence so is r2
    have hA2 : required ≤ r2 := le_trans hA1 h12
    rw [if_pos hA1, if_pos hA2]
    have hmul : (r1 - required) * 5 ≤ (r2 - required) * 5 := by linarith
    exact min_le_min le_rfl (add_le_add_left (min_le_min le_rfl hmul) 80)
  · rw [if_neg (not_le.mpr hA1)]
    rcases le_or_lt (required * 0.5) r1 with hB1 | hB1
    · rw [if_pos hB1]
      rcases le_or_lt required r2 with hA2 | hA2
      · -- r1 in the middle band, r2 at or above the requirement
        rw [if_pos hA2]
        have hdiv : r1 / required ≤ 1 := (div_le_one hreq).mpr (le_of_lt hA1)
        have harg : 40 + (r1 / required - 0.5) * 80 ≤ ((80 : ℤ) : ℚ) := by
          push_cast; nlinarith
        have hl : ((round (40 + (r1 / required - 0.5) * 80) : ℤ) : ℚ) ≤ 80 := by
          exact_mod_cast roundq_le_int harg
        have hr : (80 : ℚ) ≤ min 100 (80 + min 20 ((r2 - required) * 5)) := by
          have hnn : (0 : ℚ) ≤ min 20 ((r2 - required) * 5) :=
            le_min (by norm_num) (by nlinarith)
          exact le_min (by norm_num) (by linarith)
        linarith
      · -- both in the middle band
        rw [if_neg (not_le.mpr hA2), if_pos (le_trans hB1 h12)]
        have hdiv : r1 / required ≤ r2 / required := by gcongr
        have harg : 40 + (r1 / required - 0.5) * 80 ≤ 40 + (r2 / required - 0.5) * 80 := by
          nlinarith
        exact_mod_cast roundq_mono harg
    · rw [if_neg (not_le.mpr hB1), if_pos h1]
      have hdiv1 : r1 / (required * 0.5) ≤ 1 := (div_le_one hhalf).mpr (le_of_lt hB1)
      have harg1 : r1 / (required * 0.5) * 40 ≤ ((40 : ℤ) : ℚ) := by push_cast; nlinarith
      have hl40 : ((round (r1 / (required * 0.5) * 40) : ℤ) : ℚ) ≤ 40 := by
        exact_mod_cast roundq_le_int harg1
      rcases le_or_lt required r2 with hA2 | hA2
      · -- r1 in the low band, r2 at or above the requirement
        rw [if_pos hA2]
        have hr : (80 : ℚ) ≤ min 100 (80 + min 20 ((r2 - required) * 5)) := by
          have hnn : (0 : ℚ) ≤ min 20 ((r2 - required) * 5) :=
            le_min (by norm_num) (by nlinarith)
          exact le_min (by norm_num) (by linarith)
        linarith
      · rw [if_neg (not_le.mpr hA2)]
        rcases le_or_lt (required * 0.5) r2 with hB2 | hB2
        · -- r1 in the low band, r2 in the middle band
          rw [if_pos hB2]
          have hdiv2 : (0.5 : ℚ) ≤ r2 / required := by
            rw [le_div_iff₀ hreq]; linarith
          have harg2 : ((40 : ℤ) : ℚ) ≤ 40 + (r2 / required - 0.5) * 80 := by
            push_cast; nlinarith
          have hr : (40 : ℚ) ≤ ((round (40 + (r2 / required - 0.5) * 80) : ℤ) : ℚ) := by
            exact_mod_cast int_le_roundq harg2
          linarith
        · -- both in the low band
          rw [if_neg (not_le.mpr hB2), if_pos (lt_of_lt_of_le h1 h12)]
          have hdiv : r1 / (required * 0.5) ≤ r2 / (required * 0.5) := by gcongr
          have harg : r1 / (required * 0.5) * 40 ≤ r2 / (required * 0.5) * 40 := by nlinarith
          exact_mod_cast roundq_mono harg

/-- The best band's months in a result, unfolded. -/
theorem bands_best_months (p : UserProfile) (g : CareerGoal) :
    (evaluate p g).probabilityBands.best.estimatedTimelineMonths =
      max 1 (round (minimumRealisticMonths p g * 0.8)) := rfl

/-- The average band's months in a result, unfolded. -/
theorem bands_average_months (p : UserProfile) (g : CareerGoal) :
    (evaluate p g).probabilityBands.average.estimatedTimelineMonths =
      max 2 (round (minimumRealisticMonths p g)) := rfl

/-- The worst band's months in a result, unfolded. -/
theorem bands_worst_months (p : UserProfile) (g : CareerGoal) :
    (evaluate p g).probabilityBands.worst.estimatedTimelineMonths =
      max 3 (round (minimumRealisticMonths p g * 1.5)) := rfl

/-- The best band's required daily hours in a result, unfolded. -/
theorem bands_best_hours (p : UserProfile) (g : CareerGoal) :
    (evaluate p g).probabilityBands.best.requiredDailyHours =
      calculateRequiredHours p g .best (calculateExperienceScore p g) (calculateSkillScore p) := rfl

/-- The average band's required daily hours in a result, unfolded. -/
theorem bands_average_hours (p : UserProfile) (g : CareerGoal) :
    (evaluate p g).probabilityBands.average.requiredDailyHours =
      calculateRequiredHours p g .average (calculateExperienceScore p g) (calculateSkillScore p) := rfl

/-- The worst band's required daily hours in a result, unfolded. -/
theorem bands_worst_hours (p : UserProfile) (g : CareerGoal) :
    (evaluate p g).probabilityBands.worst.requiredDailyHours =
      calculateRequiredHours p g .worst (calculateExperienceScore p g) (calculateSkillScore p) := rfl

/-- Each band's likelihood in a result, unfolded. -/
theorem bands_likelihood_best (p : UserProfile) (g : CareerGoal) :
    (evaluate p g).probabilityBands.best.likelihood =
      calculateLikelihood (overallScoreOf p g) .best := rfl

/-- The average band's likelihood in a result, unfolded. -/
theorem bands_likelihood_average (p : UserProfile) (g : CareerGoal) :
    (evaluate p g).probabilityBands.average.likelihood =
      calculateLikelihood (overallScoreOf p g) .average := rfl

/-- The worst band's likelihood in a result, unfolded. -/
theorem bands_likelihood_worst (p : UserProfile) (g : CareerGoal) :
    (evaluate p g).probabilityBands.worst.likelihood =
      calculateLikelihood (overallScoreOf p g) .worst := rfl

/-- For any overall score the three likelihoods total 100: the best and worst
branches are chosen from complementary threshold tables (30/20, 20/30, 10/40)
and the average is fixed at 50. -/
theorem likelihood_total (o : ℤ) :
    calculateLikelihood o .best + calculateLikelihood o .average +
      calculateLikelihood o .worst = 100 := by
  simp only [calculateLikelihood]
  split_ifs <;> omega

/-- Claim C1 (counterexample): with target role "Engineering Manager"
(required years 7) and four years of general experience, raising
`relevantYears` from 0 to 1 drops the experience score from 20 to 11, so
increasing `relevantYears` can decrease `experienceScore` even on valid
inputs with `totalYears ≥ r2`. -/
theorem C1_counterexample :
    exProfileGen.experience.relevantYears ≤ exProfileOne.experience.relevantYears ∧
    exProfileOne.experience.relevantYears ≤ exProfileGen.experience.totalYears ∧
    exProfileOne.experience.totalYears = exProfileGen.experience.totalYears ∧
    calculateExperienceScore exProfileOne exGoalManager <
      calculateExperienceScore exProfileGen exGoalManager := by
  have hreq : requiredYearsFor "Engineering Manager" = 7 := by decide
  have h0 : calculateExperienceScore exProfileGen exGoalManager = 20 := by
    simp only [calculateExperienceScore, exProfileGen, exGoalManager, hreq]
    norm_num
  have h1 : calculateExperienceScore exProfileOne exGoalManager = 11 := by
    simp only [calculateExperienceScore, exProfileOne, exProfileGen, exGoalManager, hreq]
    norm_num [round_eq]
  refine ⟨by norm_num [exProfileGen, exProfileOne], by norm_num [exProfileGen, exProfileOne],
    by norm_num [exProfileGen, exProfileOne], ?_⟩
  rw [h0, h1]
  norm_num

/-- Claim C1 (amended): the experience score is monotone in `relevantYears`
when both compared values are positive — for any profile, goal and
`0 < r1 ≤ r2 ≤ totalYears`, the score with `relevantYears = r1` is at most
the score with `relevantYears = r2`, all other inputs held fixed.  (The
original claim fails only at `r1 = 0`, where the general-experience fallback
can award up to 20 points.) -/
theorem C1_experience_monotone_on_positive :
    ∀ (p : UserProfile) (g : CareerGoal) (r1 r2 : ℚ), 0 < r1 → r1 ≤ r2 →
    r2 ≤ p.experience.totalYears →
    calculateExperienceScore
        { p with experience := { p.experience with relevantYears := r1 } } g ≤
      calculateExperienceScore
        { p with experience := { p.experience with relevantYears := r2 } } g := by
  intro p g r1 r2 h1 h12 _
  rw [calculateExperienceScore_eq_expPiece, calculateExperienceScore_eq_expPiece]
  exact expPiece_mono (requiredYearsFor_pos g.targetRole) h1 h12

/-- Claim C1 witness: the amended monotonicity applied at `r1 = 1`, `r2 = 2`
on the six-year example profile. -/
theorem C1_witness :
    calculateExperienceScore
        { exProfileSix with experience := { exProfileSix.experience with relevantYears := 1 } }
        exGoalSE ≤
      calculateExperienceScore
        { exProfileSix with experience := { exProfileSix.experience with relevantYears := 2 } }
        exGoalSE :=
  C1_experience_monotone_on_positive exProfileSix exGoalSE 1 2 (by norm_num) (by norm_num)
    (by norm_num [exProfileSix])

/-- Claim C2 (counterexample): there is no profile and goal whose three band
likelihoods fail to sum to 100 — the claimed input does not exist, because the
best and worst likelihood tables are complementary around the fixed 50. -/
theorem C2_counterexample :
    ¬ ∃ (p : UserProfile) (g : CareerGoal),
      (evaluate p g).probabilityBands.best.likelihood +
        (evaluate p g).probabilityBands.average.likelihood +
        (evaluate p g).probabilityBands.worst.likelihood ≠ 100 := by
  rintro ⟨p, g, hne⟩
  apply hne
  rw [bands_likelihood_best, bands_likelihood_average, bands_likelihood_worst]
  exact likelihood_total (overallScoreOf p g)

/-- Claim C2 (amended): for every profile and goal the three band likelihoods
sum to exactly 100 (best + worst is always 50 and average is fixed at 50). -/
theorem C2_likelihoods_sum_to_100 :
    ∀ (p : UserProfile) (g : CareerGoal),
      (evaluate p g).probabilityBands.best.likelihood +
        (evaluate p g).probabilityBands.average.likelihood +
        (evaluate p g).probabilityBands.worst.likelihood = 100 := by
  intro p g
  rw [bands_likelihood_best, bands_likelihood_average, bands_likelihood_worst]
  exact likelihood_total (overallScoreOf p g)

/-- Claim C3: the experience score equals the spec's piecewise function over
the keyword-derived required years, and in particular six relevant years
toward the keyword-free role "Software Engineer" score 95. -/
theorem C3_experience_score_matches_spec :
    (∀ (p : UserProfile) (g : CareerGoal),
      calculateExperienceScore p g = specExperienceScore p g) ∧
    calculateExperienceScore exProfileSix exGoalSE = 95 := by
  constructor
  · intro p g; rfl
  · have hreq : requiredYearsFor "Software Engineer" = 3 := by decide
    simp only [calculateExperienceScore, exProfileSix, exGoalSE, hreq]
    norm_num

/-- Claim C5: the three bands' estimated months are ordered
best ≤ average ≤ worst, since they are `max` floors 1/2/3 over roundings of
0.8×, 1.0× and 1.5× the same non-negative base months. -/
theorem C5_band_months_ordered :
    ∀ (p : UserProfile) (g : CareerGoal),
      (evaluate p g).probabilityBands.best.estimatedTimelineMonths ≤
        (evaluate p g).probabilityBands.average.estimatedTimelineMonths ∧
      (evaluate p g).probabilityBands.average.estimatedTimelineMonths ≤
        (evaluate p g).probabilityBands.worst.estimatedTimelineMonths := by
  intro p g
  rw [bands_best_months, bands_average_months, bands_worst_months]
  have hb : (0 : ℚ) ≤ minimumRealisticMonths p g :=
    le_trans (by norm_num) (le_max_left 2 _)
  constructor
  · exact max_le_max (by norm_num) (roundq_mono (by nlinarith))
  · exact max_le_max (by norm_num) (roundq_mono (by nlinarith))

/-- Claim C7: the skill-gap list is exactly the spec's description —
synthesized placeholder gaps first when fewer than three skills are listed,
then the low-proficiency gaps in profile order, with no deduplication. -/
theorem C7_skill_gaps_match_spec :
    ∀ (p : UserProfile) (g : CareerGoal), identifySkillGaps p g = specSkillGaps p g :=
  fun _ _ => rfl

/-- Claim C8: the expectation-vs-averages check behaves exactly as specified —
nothing without a matched scenario, a single severity-3 timeline warning with
`percentageFaster = round((avg-user)/avg*100)` when the timeline condition
holds, and the severity-2 salary condition considered only otherwise, so at
most one warning is emitted. -/
theorem C8_expectation_warning_matches_spec :
    ∀ (p : UserProfile) (g : CareerGoal),
      checkExpectationVsAveragesWarning p g = specExpectationWarning p g :=
  fun _ _ => rfl

/-- The clamp `min 8 (round(x*10)/10)` keeps hours within `[0, 8]` for
non-negative total hours. -/
theorem clampHours_bounds (x : ℚ) (hx : 0 ≤ x) :
    0 ≤ min 8 (((round (x * 10) : ℤ) : ℚ) / 10) ∧
      min 8 (((round (x * 10) : ℤ) : ℚ) / 10) ≤ 8 :=
  ⟨le_min (by norm_num)
      (div_nonneg (by exact_mod_cast roundq_nonneg (by positivity)) (by norm_num)),
    min_le_left _ _⟩

/-- Required daily hours are always within `[0, 8]`, for every band and any
score inputs. -/
theorem calculateRequiredHours_bounds (p : UserProfile) (g : CareerGoal)
    (band : BandKind) (e s : ℚ) :
    0 ≤ calculateRequiredHours p g band e s ∧ calculateRequiredHours p g band e s ≤ 8 := by
  have hbase : (0 : ℚ) ≤ 2 +
      (if 0 < (identifySkillGaps p g).length then ((identifySkillGaps p g).length : ℚ) * 0.5 else 0) +
      (if e < 50 then 1 else 0) := by
    split_ifs <;> positivity
  cases band <;> exact clampHours_bounds _ (mul_nonneg hbase (by norm_num))

/-- Claim C9: in every result, each band's `requiredDailyHours` lies in
`[0, 8]`. -/
theorem C9_required_hours_in_range :
    ∀ (p : UserProfile) (g : CareerGoal),
      (0 ≤ (evaluate p g).probabilityBands.best.requiredDailyHours ∧
        (evaluate p g).probabilityBands.best.requiredDailyHours ≤ 8) ∧
      (0 ≤ (evaluate p g).probabilityBands.average.requiredDailyHours ∧
        (evaluate p g).probabilityBands.average.requiredDailyHours ≤ 8) ∧
      (0 ≤ (evaluate p g).probabilityBands.worst.requiredDailyHours ∧
        (evaluate p g).probabilityBands.worst.requiredDailyHours ≤ 8) := by
  intro p g
  rw [bands_best_hours, bands_average_hours, bands_worst_hours]
  exact ⟨calculateRequiredHours_bounds p g .best _ _,
    calculateRequiredHours_bounds p g .average _ _,
    calculateRequiredHours_bounds p g .worst _ _⟩

/-- Bounds of the abstract experience-score formula on valid inputs. -/
theorem expPiece_bounds (required t r : ℚ) (hreq : 0 < required)
    (hr : 0 ≤ r) (ht : 0 ≤ t) :
    0 ≤ expPiece required t r ∧ expPiece required t r ≤ 100 := by
  simp only [expPiece]
  split_ifs with h1 h2 h3 h4
  · constructor
    · have hnn : (0 : ℚ) ≤ min 20 ((r - required) * 5) :=
        le_min (by norm_num) (by nlinarith)
      exact le_min (by norm_num) (by linarith)
    · exact min_le_left _ _
  · have hd1 : (0.5 : ℚ) ≤ r / required := by rw [le_div_iff₀ hreq]; linarith
    have hd2 : r / required ≤ 1 := (div_le_one hreq).mpr (le_of_lt (not_le.mp h1))
    constructor
    · have harg : ((0 : ℤ) : ℚ) ≤ 40 + (r / required - 0.5) * 80 := by push_cast; nlinarith
      exact_mod_cast int_le_roundq harg
    · have harg : 40 + (r / required - 0.5) * 80 ≤ ((100 : ℤ) : ℚ) := by push_cast; nlinarith
      exact_mod_cast roundq_le_int harg
  · have hhalf : (0 : ℚ) < required * 0.5 := by positivity
    have hd1 : 0 ≤ r / (required * 0.5) := div_nonneg (le_of_lt h3) (le_of_lt hhalf)
    have hd2 : r / (required * 0.5) ≤ 1 := (div_le_one hhalf).mpr (le_of_lt (not_le.mp h2))
    constructor
    · have harg : ((0 : ℤ) : ℚ) ≤ r / (required * 0.5) * 40 := by push_cast; nlinarith
      exact_mod_cast int_le_roundq harg
    · have harg : r / (required * 0.5) * 40 ≤ ((100 : ℤ) : ℚ) := by push_cast; nlinarith
      exact_mod_cast roundq_le_int harg
  · exact ⟨le_min (by norm_num) (by nlinarith), le_trans (min_le_left _ _) (by norm_num)⟩
  · exact ⟨le_refl 0, by norm_num⟩

/-- The experience score lies in `[0, 100]` on valid inputs. -/
theorem calculateExperienceScore_bounds (p : UserProfile) (g : CareerGoal)
    (hr : 0 ≤ p.experience.relevantYears) (ht : 0 ≤ p.experience.totalYears) :
    0 ≤ calculateExperienceScore p g ∧ calculateExperienceScore p g ≤ 100 := by
  rw [calculateExperienceScore_eq_expPiece]
  exact expPiece_bounds _ _ _ (requiredYearsFor_pos g.targetRole) hr ht

/-- The skill score lies in `[0, 100]` unconditionally. -/
theorem calculateSkillScore_bounds (p : UserProfile) :
    0 ≤ calculateSkillScore p ∧ calculateSkillScore p ≤ 100 := by
  have hbonus : (0 : ℚ) ≤ min 20 ((p.skills.length : ℚ) * 2) :=
    le_min (by norm_num) (by positivity)
  simp only [calculateSkillScore]
  split_ifs <;>
    first
      | exact ⟨le_refl 0, by norm_num⟩
      | exact ⟨le_min (by norm_num) (by linarith), min_le_left _ _⟩

/-- The field-of-study bonus lies in `[0, 20]`. -/
theorem educationFieldBonus_bounds (f : Option String) (ind : String) :
    0 ≤ educationFieldBonus f ind ∧ educationFieldBonus f ind ≤ 20 := by
  cases f with
  | none => simp [educationFieldBonus]
  | some s =>
    simp only [educationFieldBonus]
    split_ifs <;> norm_num

/-- The education score lies in `[0, 100]` unconditionally. -/
theorem calculateEducationScore_bounds (p : UserProfile) (g : CareerGoal) :
    0 ≤ calculateEducationScore p g ∧ calculateEducationScore p g ≤ 100 := by
  have hb := educationFieldBonus_bounds p.education.field g.targetIndustry
  simp only [calculateEducationScore]
  constructor
  · apply le_min (by norm_num)
    split <;> linarith [hb.1]
  · exact min_le_left _ _

/-- The timeline score lies in `[0, 100]` for non-negative target months. -/
theorem calculateTimelineScore_bounds (p : UserProfile) (g : CareerGoal)
    (htm : 0 ≤ g.timeline.targetMonths) :
    0 ≤ calculateTimelineScore p g ∧ calculateTimelineScore p g ≤ 100 := by
  have hm2 : (2 : ℚ) ≤ minimumRealisticMonths p g := le_max_left 2 _
  have hm0 : (0 : ℚ) < minimumRealisticMonths p g := by linarith
  simp only [calculateTimelineScore]
  split_ifs with h1 h2 h3
  · norm_num
  · have hd1 : 1 ≤ g.timeline.targetMonths / minimumRealisticMonths p g := by
      rw [le_div_iff₀ hm0]; linarith
    have hd2 : g.timeline.targetMonths / minimumRealisticMonths p g ≤ 1.5 := by
      rw [div_le_iff₀ hm0]; nlinarith [not_le.mp h1]
    constructor
    · have harg : ((0 : ℤ) : ℚ) ≤
          70 + (g.timeline.targetMonths / minimumRealisticMonths p g - 1) * 20 := by
        push_cast; nlinarith
      exact_mod_cast int_le_roundq harg
    · have harg : 70 + (g.timeline.targetMonths / minimumRealisticMonths p g - 1) * 20 ≤
          ((100 : ℤ) : ℚ) := by push_cast; nlinarith
      exact_mod_cast roundq_le_int harg
  · have hd1 : (0.7 : ℚ) ≤ g.timeline.targetMonths / minimumRealisticMonths p g := by
      rw [le_div_iff₀ hm0]; linarith
    have hd2 : g.timeline.targetMonths / minimumRealisticMonths p g ≤ 1 := by
      rw [div_le_one hm0]; exact le_of_lt (not_le.mp h2)
    constructor
    · have harg : ((0 : ℤ) : ℚ) ≤
          40 + (g.timeline.targetMonths / minimumRealisticMonths p g - 0.7) * 100 := by
        push_cast; nlinarith
      exact_mod_cast int_le_roundq harg
    · have harg : 40 + (g.timeline.targetMonths / minimumRealisticMonths p g - 0.7) * 100 ≤
          ((100 : ℤ) : ℚ) := by push_cast; nlinarith
      exact_mod_cast roundq_le_int harg
  · have hd1 : 0 ≤ g.timeline.targetMonths / minimumRealisticMonths p g :=
      div_nonneg htm (le_of_lt hm0)
    have hd2 : g.timeline.targetMonths / minimumRealisticMonths p g ≤ 0.7 := by
      rw [div_le_iff₀ hm0]; nlinarith [not_le.mp h3]
    constructor
    · have harg : ((0 : ℤ) : ℚ) ≤ g.timeline.targetMonths / minimumRealisticMonths p g * 57 := by
        push_cast; nlinarith
      exact_mod_cast int_le_roundq harg
    · have harg : g.timeline.targetMonths / minimumRealisticMonths p g * 57 ≤
          ((100 : ℤ) : ℚ) := by push_cast; nlinarith
      exact_mod_cast roundq_le_int harg

/-- Claim C4: on valid inputs, every component score of the breakdown and the
overall score lie in `[0, 100]`. -/
theorem C4_scores_within_bounds :
    ∀ (p : UserProfile) (g : CareerGoal), ValidInput p g →
      (0 ≤ (evaluate p g).scoreBreakdown.experienceScore ∧
        (evaluate p g).scoreBreakdown.experienceScore ≤ 100) ∧
      (0 ≤ (evaluate p g).scoreBreakdown.skillScore ∧
        (evaluate p g).scoreBreakdown.skillScore ≤ 100) ∧
      (0 ≤ (evaluate p g).scoreBreakdown.educationScore ∧
        (evaluate p g).scoreBreakdown.educationScore ≤ 100) ∧
      (0 ≤ (evaluate p g).scoreBreakdown.timelineScore ∧
        (evaluate p g).scoreBreakdown.timelineScore ≤ 100) ∧
      (0 ≤ (evaluate p g).overallScore ∧ (evaluate p g).overallScore ≤ 100) := by
  intro p g hvalid
  obtain ⟨ht, hr, -, htm⟩ := hvalid
  have he := calculateExperienceScore_bounds p g hr ht
  have hs := calculateSkillScore_bounds p
  have hed := calculateEducationScore_bounds p g
  have htl := calculateTimelineScore_bounds p g (by linarith)
  refine ⟨he, hs, hed, htl, ?_, ?_⟩
  · have harg : ((0 : ℤ) : ℚ) ≤ calculateExperienceScore p g * 0.3 +
        calculateSkillScore p * 0.3 + calculateEducationScore p g * 0.2 +
        calculateTimelineScore p g * 0.2 := by
      push_cast; nlinarith [he.1, hs.1, hed.1, htl.1]
    exact int_le_roundq harg
  · have harg : calculateExperienceScore p g * 0.3 + calculateSkillScore p * 0.3 +
        calculateEducationScore p g * 0.2 + calculateTimelineScore p g * 0.2 ≤
        ((100 : ℤ) : ℚ) := by
      push_cast; nlinarith [he.2, hs.2, hed.2, htl.2]
    exact roundq_le_int harg

/-- Claim C4 witness: the bounds applied to the six-year example input, whose
validity is checked concretely. -/
theorem C4_witness :
    0 ≤ (evaluate exProfileSix exGoalSE).overallScore ∧
      (evaluate exProfileSix exGoalSE).overallScore ≤ 100 :=
  (C4_scores_within_bounds exProfileSix exGoalSE
    ⟨by norm_num [exProfileSix], by norm_num [exProfileSix],
      by intro s hs; simp [exProfileSix] at hs, by norm_num [exGoalSE]⟩).2.2.2.2

/-- Integer casts are integers. -/
theorem isIntQ_intCast (k : ℤ) : IsIntQ (k : ℚ) := ⟨k, rfl⟩

/-- Sums of integers are integers. -/
theorem isIntQ_add {a b : ℚ} (ha : IsIntQ a) (hb : IsIntQ b) : IsIntQ (a + b) := by
  obtain ⟨x, hx⟩ := ha; obtain ⟨y, hy⟩ := hb
  exact ⟨x + y, by rw [hx, hy]; push_cast; ring⟩

/-- Differences of integers are integers. -/
theorem isIntQ_sub {a b : ℚ} (ha : IsIntQ a) (hb : IsIntQ b) : IsIntQ (a - b) := by
  obtain ⟨x, hx⟩ := ha; obtain ⟨y, hy⟩ := hb
  exact ⟨x - y, by rw [hx, hy]; push_cast; ring⟩

/-- Products of integers are integers. -/
theorem isIntQ_mul {a b : ℚ} (ha : IsIntQ a) (hb : IsIntQ b) : IsIntQ (a * b) := by
  obtain ⟨x, hx⟩ := ha; obtain ⟨y, hy⟩ := hb
  exact ⟨x * y, by rw [hx, hy]; push_cast; ring⟩

/-- Minima of integers are integers. -/
theorem isIntQ_min {a b : ℚ} (ha : IsIntQ a) (hb : IsIntQ b) : IsIntQ (min a b) := by
  obtain ⟨x, hx⟩ := ha; obtain ⟨y, hy⟩ := hb
  exact ⟨min x y, by rw [hx, hy, Int.cast_min]⟩

/-- The keyword-derived year requirement is an integer. -/
theorem requiredYearsFor_int (targetRole : String) : IsIntQ (requiredYearsFor targetRole) := by
  rcases requiredYearsFor_cases targetRole with h | h | h | h <;> rw [h]
  · exact ⟨5, by norm_num⟩
  · exact ⟨1, by norm_num⟩
  · exact ⟨7, by norm_num⟩
  · exact ⟨3, by norm_num⟩

/-- The experience-score formula yields an integer when the requirement and
both experience inputs are integers. -/
theorem expPiece_int {required t r : ℚ} (hreq : IsIntQ required) (ht : IsIntQ t)
    (hr : IsIntQ r) : IsIntQ (expPiece required t r) := by
  simp only [expPiece]
  split_ifs
  · exact isIntQ_min ⟨100, by norm_num⟩
      (isIntQ_add ⟨80, by norm_num⟩
        (isIntQ_min ⟨20, by norm_num⟩ (isIntQ_mul (isIntQ_sub hr hreq) ⟨5, by norm_num⟩)))
  · exact isIntQ_intCast _
  · exact isIntQ_intCast _
  · exact isIntQ_min ⟨20, by norm_num⟩ (isIntQ_mul ht ⟨5, by norm_num⟩)
  · exact ⟨0, by norm_num⟩

/-- The skill score is always an integer. -/
theorem calculateSkillScore_int (p : UserProfile) : IsIntQ (calculateSkillScore p) := by
  have hbonus : IsIntQ (min 20 ((p.skills.length : ℚ) * 2)) :=
    isIntQ_min ⟨20, by norm_num⟩
      (isIntQ_mul ⟨(p.skills.length : ℤ), by push_cast; ring⟩ ⟨2, by norm_num⟩)
  simp only [calculateSkillScore]
  split_ifs
  · exact ⟨0, by norm_num⟩
  · exact isIntQ_min ⟨100, by norm_num⟩ (isIntQ_add ⟨100, by norm_num⟩ hbonus)
  · exact isIntQ_min ⟨100, by norm_num⟩ (isIntQ_add ⟨80, by norm_num⟩ hbonus)
  · exact isIntQ_min ⟨100, by norm_num⟩ (isIntQ_add ⟨50, by norm_num⟩ hbonus)
  · exact isIntQ_min ⟨100, by norm_num⟩ (isIntQ_add ⟨25, by norm_num⟩ hbonus)
  · exact isIntQ_min ⟨100, by norm_num⟩ (isIntQ_add ⟨0, by norm_num⟩ hbonus)

/-- The field-of-study bonus is always an integer. -/
theorem educationFieldBonus_int (f : Option String) (ind : String) :
    IsIntQ (educationFieldBonus f ind) := by
  cases f with
  | none => exact ⟨0, by simp [educationFieldBonus]⟩
  | some s =>
    simp only [educationFieldBonus]
    split_ifs
    · exact ⟨0, by norm_num⟩
    · exact ⟨20, by norm_num⟩
    · exact ⟨20, by norm_num⟩
    · exact ⟨15, by norm_num⟩
    · exact ⟨0, by norm_num⟩

/-- The education score is always an integer. -/
theorem calculateEducationScore_int (p : UserProfile) (g : CareerGoal) :
    IsIntQ (calculateEducationScore p g) := by
  have hb := educationFieldBonus_int p.education.field g.targetIndustry
  simp only [calculateEducationScore]
  apply isIntQ_min ⟨100, by norm_num⟩
  apply isIntQ_add _ hb
  cases p.education.level
  · exact ⟨40, by norm_num⟩
  · exact ⟨60, by norm_num⟩
  · exact ⟨80, by norm_num⟩
  · exact ⟨100, by norm_num⟩
  · exact ⟨100, by norm_num⟩
  · exact ⟨0, by norm_num⟩

/-- The timeline score is always an integer. -/
theorem calculateTimelineScore_int (p : UserProfile) (g : CareerGoal) :
    IsIntQ (calculateTimelineScore p g) := by
  simp only [calculateTimelineScore]
  split_ifs
  · exact ⟨100, by norm_num⟩
  · exact isIntQ_intCast _
  · exact isIntQ_intCast _
  · exact isIntQ_intCast _

/-- Claim C6 (counterexample): with fractional experience
`relevantYears = totalYears = 3.5` toward the keyword-free role "Software
Engineer", the experience score in the breakdown is `82.5`, not an integer —
the top branch `min(100, 80 + min(20, (r-required)*5))` is never rounded. -/
theorem C6_counterexample :
    ¬ IsIntQ (evaluate exProfileHalf exGoalSE).scoreBreakdown.experienceScore := by
  have hv : (evaluate exProfileHalf exGoalSE).scoreBreakdown.experienceScore = 165 / 2 := by
    show calculateExperienceScore exProfileHalf exGoalSE = 165 / 2
    have hreq : requiredYearsFor "Software Engineer" = 3 := by decide
    simp only [calculateExperienceScore, exProfileHalf, exGoalSE, hreq]
    norm_num
  rw [hv]
  rintro ⟨k, hk⟩
  have h2 : (165 : ℚ) = (k : ℚ) * 2 := by field_simp at hk; linarith
  have h3 : (165 : ℤ) = k * 2 := by exact_mod_cast h2
  omega

/-- Claim C6 (amended): for every profile and goal, the skill, education and
timeline scores in the breakdown are integers unconditionally, and the
experience score is an integer whenever `relevantYears` and `totalYears` are
integers (with fractional years it can be fractional, as the counterexample
shows). -/
theorem C6_breakdown_integer_on_integer_years :
    ∀ (p : UserProfile) (g : CareerGoal),
      IsIntQ (evaluate p g).scoreBreakdown.skillScore ∧
      IsIntQ (evaluate p g).scoreBreakdown.educationScore ∧
      IsIntQ (evaluate p g).scoreBreakdown.timelineScore ∧
      (IsIntQ p.experience.relevantYears → IsIntQ p.experience.totalYears →
        IsIntQ (evaluate p g).scoreBreakdown.experienceScore) := by
  intro p g
  refine ⟨calculateSkillScore_int p, calculateEducationScore_int p g,
    calculateTimelineScore_int p g, fun hr ht => ?_⟩
  show IsIntQ (calculateExperienceScore p g)
  rw [calculateExperienceScore_eq_expPiece]
  exact expPiece_int (requiredYearsFor_int g.targetRole) ht hr

/-- Claim C6 witness: integrality of the experience score at the integer-year
six-year example input, discharging the integer-year hypotheses there. -/
theorem C6_witness :
    IsIntQ (evaluate exProfileSix exGoalSE).scoreBreakdown.experienceScore :=
  (C6_breakdown_integer_on_integer_years exProfileSix exGoalSE).2.2.2
    ⟨6, by norm_num [exProfileSix]⟩ ⟨6, by norm_num [exProfileSix]⟩

/-- Claim C10: the average band's hours reaching the time-availability check
are capped at 8 by `calculateRequiredHours`, so the branch guarded by
`requiredHours > 8` (the "exceeds a sustainable 8-hour workday" message) can
never be chosen, and a severity-3 `resource_constraint` warning can only come
from being employed with more than 5 required hours, or from the required
hours exceeding 1.5 times the available hours. -/
theorem C10_sustainable_branch_unreachable :
    ∀ (p : UserProfile) (g : CareerGoal) (w : TimeWarning),
      checkTimeAvailabilityWarning p g (evaluate p g).probabilityBands = some w →
      w.message ≠ TimeMsg.exceedsEight ∧
      (w.severity = 3 →
        (p.employmentStatus = EmploymentStatus.employed ∧
          5 < (evaluate p g).probabilityBands.average.requiredDailyHours) ∨
        availableHoursFor p * 1.5 <
          (evaluate p g).probabilityBands.average.requiredDailyHours) := by
  intro p g w h
  have h8 : (evaluate p g).probabilityBands.average.requiredDailyHours ≤ 8 := by
    rw [bands_average_hours]
    exact (calculateRequiredHours_bounds p g .average _ _).2
  simp only [checkTimeAvailabilityWarning] at h
  split_ifs at h with hfire hemp hexceed hc
  · injection h with h
    subst h
    exact ⟨by simp, fun _ => Or.inl hemp⟩
  · exact absurd hexceed (not_lt.mpr h8)
  · injection h with h
    subst h
    exact ⟨by simp, fun _ => Or.inr hc⟩
  · injection h with h
    subst h
    exact ⟨by simp, fun h23 => absurd h23 (by norm_num)⟩

/-- On the no-skill employed example, the average band requires 4.5 daily
hours: base 2, plus 1.5 for three synthesized gaps, plus 1 for the low
experience score. -/
theorem hoursGen_avg_eq :
    (evaluate exProfileGen exGoalManager).probabilityBands.average.requiredDailyHours = 9 / 2 := by
  rw [bands_average_hours]
  have hreq : requiredYearsFor "Engineering Manager" = 7 := by decide
  have hexp : calculateExperienceScore exProfileGen exGoalManager = 20 := by
    simp only [calculateExperienceScore, exProfileGen, exGoalManager, hreq]
    norm_num
  have hlen : (identifySkillGaps exProfileGen exGoalManager).length = 3 := by decide
  simp only [calculateRequiredHours, hexp, hlen]
  norm_num [round_eq]

/-- Claim C10 witness: on the no-skill employed example the check fires a
severity-2 shortfall warning, and the theorem's conclusions hold for it. -/
theorem C10_witness :
    (⟨2, TimeMsg.shortfall, 9/2, 3, 3/2⟩ : TimeWarning).message ≠ TimeMsg.exceedsEight ∧
    ((⟨2, TimeMsg.shortfall, 9/2, 3, 3/2⟩ : TimeWarning).severity = 3 →
      (exProfileGen.employmentStatus = EmploymentStatus.employed ∧
        5 < (evaluate exProfileGen exGoalManager).probabilityBands.average.requiredDailyHours) ∨
      availableHoursFor exProfileGen * 1.5 <
        (evaluate exProfileGen exGoalManager).probabilityBands.average.requiredDailyHours) := by
  apply C10_sustainable_branch_unreachable exProfileGen exGoalManager
  have hav : availableHoursFor exProfileGen = 3 := by decide
  have hemp : exProfileGen.employmentStatus = EmploymentStatus.employed := by decide
  simp only [checkTimeAvailabilityWarning, hoursGen_avg_eq, hav, hemp]
  norm_num [round_eq]
